import Mathlib

/-!
Shallow embedding of the issue-tracking backend of this repository.

The authoritative implementation is the pair
`src/backend/routes/issueRoutes-final.js` (route handlers) and
`src/backend/models/Issue-final.js` (the mongoose Issue schema).  The
legacy pair `src/backend/routes/issueRoutes.js` with the plain schema in
`src/unnamed/part_002` is embedded separately (prefix `legacy`) for the
refinement claim.

Modelling conventions:
- The document store is a pair of lists (issues, comments); `findById`
  is `List.find?` on the id field, `countDocuments`/`find` with a filter
  is `List.filter`, `sort(\x7bcreatedAt: -1\x7d)` is `List.mergeSort` with a
  descending comparison on `createdAt` (a `Nat` timestamp).
- JavaScript `String.prototype.trim` (also mongoose's `trim: true`
  setter) is `jsTrim`, character-list based so that it reduces in the
  kernel; string length is the character count.
- Each route handler becomes a function returning the HTTP status code,
  the success payload (when any), and the resulting store.  Error bodies
  are abstracted to their status code, which is what the claims speak
  about (400-class format/validation errors vs 404 not-found).
- Mongoose validation failures are `Except.error` carrying the schema's
  message strings.
- `completionRate` uses exact rational arithmetic in place of IEEE
  doubles: `toFixed(1)` on a nonnegative number picks the closest
  multiple of 1/10, ties upward, which is `round (x * 10) / 10`.
-/

namespace IssueWeb

/-- Issue status enumeration from the mongoose schema:
"Open", "In Progress", "Resolved", "Closed". -/
inductive Status where
  | Open
  | InProgress
  | Resolved
  | Closed
deriving DecidableEq, Repr

/-- Issue priority enumeration from the mongoose schema:
"Low", "Medium", "High", "Urgent". -/
inductive Priority where
  | Low
  | Medium
  | High
  | Urgent
deriving DecidableEq, Repr

/-- Parse a status string as the schema enum validator does. -/
def parseStatus : String → Option Status
  | "Open" => some .Open
  | "In Progress" => some .InProgress
  | "Resolved" => some .Resolved
  | "Closed" => some .Closed
  | _ => none

/-- Parse a priority string as the schema enum validator does. -/
def parsePriority : String → Option Priority
  | "Low" => some .Low
  | "Medium" => some .Medium
  | "High" => some .High
  | "Urgent" => some .Urgent
  | _ => none

/-- JavaScript string trim, on the character list so it reduces well. -/
def jsTrim (s : String) : String :=
  ⟨((s.data.dropWhile Char.isWhitespace).reverse.dropWhile Char.isWhitespace).reverse⟩

/-- Character count of a string (JS `.length` on the strings used here). -/
def strLen (s : String) : Nat := s.data.length

/-- The ObjectId format gate used by every id-taking route in
`issueRoutes-final.js`: the regex `[0-9a-fA-F]\x7b24\x7d` anchored at both
ends, i.e. exactly 24 hexadecimal characters of either case. -/
def isValidObjectId (s : String) : Bool :=
  s.data.length == 24 &&
    s.data.all (fun c =>
      (('0' ≤ c && c ≤ '9') || ('a' ≤ c && c ≤ 'f') || ('A' ≤ c && c ≤ 'F')))

/-- A stored issue document (model `Issue-final.js`), with the fields the
routes read and write. Timestamps are abstract `Nat` instants. -/
structure Issue where
  id : String
  title : String
  description : String
  status : Status
  priority : Priority
  assignee : String
  author : String
  createdAt : Nat
deriving DecidableEq, Repr

/-- A stored comment document: content, author, owning issue, timestamp. -/
structure Comment where
  id : String
  content : String
  author : String
  issue : String
  createdAt : Nat
deriving DecidableEq, Repr

/-- The document store backing the routes: all issues and all comments. -/
structure Store where
  issues : List Issue
  comments : List Comment
deriving DecidableEq, Repr

/-- Mongoose `findById` on the issue collection. -/
def findIssue (s : Store) (id : String) : Option Issue :=
  s.issues.find? (fun i => i.id == id)

/-- Descending-by-creation-time comparison used to model
`sort(\x7bcreatedAt: -1\x7d)`. -/
def newerFirst (a b : Issue) : Bool := decide (b.createdAt ≤ a.createdAt)

/-- Descending-by-creation-time comparison for comments. -/
def newerFirstC (a b : Comment) : Bool := decide (b.createdAt ≤ a.createdAt)

/-- A request body for issue creation or update: every field optional,
including a caller-supplied `author` (which POST overrides and PUT, as
the code stands, passes straight through to `findByIdAndUpdate`). -/
structure IssueDraft where
  title : Option String
  description : Option String
  status : Option String
  priority : Option String
  assignee : Option String
  author : Option String
deriving DecidableEq, Repr

/-- The validated field set produced by the `Issue-final.js` schema. -/
structure IssueFields where
  title : String
  description : String
  status : Status
  priority : Priority
  assignee : String
deriving DecidableEq, Repr

/-- Title path of the schema: trim setter, `required`, `minlength` 3,
`maxlength` 200 (mongoose validates the trimmed value). -/
def validateTitle (t : String) : Except (List String) String :=
  if strLen (jsTrim t) = 0 then Except.error ["Issue title is required"]
  else if strLen (jsTrim t) < 3 then Except.error ["Title must be at least 3 characters long"]
  else if 200 < strLen (jsTrim t) then Except.error ["Title cannot exceed 200 characters"]
  else Except.ok (jsTrim t)

/-- Description path: trim setter, `maxlength` 2000. -/
def validateDescription (d : String) : Except (List String) String :=
  if 2000 < strLen (jsTrim d) then Except.error ["Description cannot exceed 2000 characters"]
  else Except.ok (jsTrim d)

/-- Status path: enum membership. -/
def validateStatus (s : String) : Except (List String) Status :=
  match parseStatus s with
  | some st => Except.ok st
  | none => Except.error ["Status must be one of: Open, In Progress, Resolved, Closed"]

/-- Priority path: enum membership. -/
def validatePriority (s : String) : Except (List String) Priority :=
  match parsePriority s with
  | some pr => Except.ok pr
  | none => Except.error ["Priority must be one of: Low, Medium, High, Urgent"]

/-- Assignee path: trim setter, `maxlength` 100. -/
def validateAssignee (a : String) : Except (List String) String :=
  if 100 < strLen (jsTrim a) then Except.error ["Assignee name cannot exceed 100 characters"]
  else Except.ok (jsTrim a)

/-- One schema path on a document write: an absent field keeps (or
defaults to) `keep`, a present field goes through its validator. -/
def patchField {α : Type} (keep : α) (validate : String → Except (List String) α) :
    Option String → Except (List String) α
  | none => Except.ok keep
  | some x => validate x

/-- Title path on create: the field is `required`, so an absent title is
itself a validation failure. -/
def requireTitle : Option String → Except (List String) String
  | none => Except.error ["Issue title is required"]
  | some x => validateTitle x

/-- Document validation run by `Issue.create` against `Issue-final.js`:
required/length/enum checks per field, with the schema defaults
(description and assignee default to the empty string, status to Open,
priority to Low) for absent fields.  Mongoose gathers every failing
path into one ValidationError; here the first failing path is reported,
which the routes observe only as a 400 status. -/
def validateIssue (d : IssueDraft) : Except (List String) IssueFields :=
  (requireTitle d.title).bind fun t =>
  (patchField "" validateDescription d.description).bind fun de =>
  (patchField Status.Open validateStatus d.status).bind fun st =>
  (patchField Priority.Low validatePriority d.priority).bind fun pr =>
  (patchField "" validateAssignee d.assignee).bind fun asg =>
  Except.ok ⟨t, de, st, pr, asg⟩

/-- GET /api/issues/:id in `issueRoutes-final.js`: format-gate the id,
then `findById`; 400 on bad format, 404 when absent, 200 with the
document otherwise. -/
def getIssue (s : Store) (id : String) : Nat × Option Issue :=
  if isValidObjectId id then
    match findIssue s id with
    | none => (404, none)
    | some i => (200, some i)
  else (400, none)

/-- POST /api/issues in `issueRoutes-final.js`: spread the request body,
overwrite `author` with the authenticated user id, `Issue.create`
(schema validation), 201 with the stored document or 400 on a
ValidationError.  `newId` and `now` stand for the generated ObjectId
and the `timestamps: true` creation instant. -/
def createIssue (s : Store) (d : IssueDraft) (userId newId : String) (now : Nat) :
    Nat × Option Issue × Store :=
  match validateIssue d with
  | Except.error _ => (400, none, s)
  | Except.ok f =>
    let i : Issue := ⟨newId, f.title, f.description, f.status, f.priority, f.assignee, userId, now⟩
    (201, some i, ⟨i :: s.issues, s.comments⟩)

/-- Effect of `findByIdAndUpdate(id, body, \x7brunValidators: true\x7d)` on one
document: each field present in the body is passed through the same
schema path as on create (trim setters, length and enum validators) and
then set; absent fields keep their stored values.  The schema marks no
field immutable, so a present `author` is set like any other field. -/
def applyPatch (old : Issue) (p : IssueDraft) : Except (List String) Issue :=
  (patchField old.title validateTitle p.title).bind fun t =>
  (patchField old.description validateDescription p.description).bind fun de =>
  (patchField old.status validateStatus p.status).bind fun st =>
  (patchField old.priority validatePriority p.priority).bind fun pr =>
  (patchField old.assignee validateAssignee p.assignee).bind fun asg =>
  Except.ok { old with
    title := t, description := de, status := st, priority := pr, assignee := asg,
    author := p.author.getD old.author }

/-- PUT /api/issues/:id in `issueRoutes-final.js`: format gate, existence
check via `findById` (404 when absent), then `findByIdAndUpdate` with
`runValidators` (400 on a ValidationError), 200 with the updated
document. -/
def updateIssue (s : Store) (id : String) (p : IssueDraft) : Nat × Option Issue × Store :=
  if isValidObjectId id then
    match findIssue s id with
    | none => (404, none, s)
    | some old =>
      match applyPatch old p with
      | Except.error _ => (400, none, s)
      | Except.ok ni =>
        (200, some ni, ⟨s.issues.map (fun i => if i.id == id then ni else i), s.comments⟩)
  else (400, none, s)

/-- DELETE /api/issues/:id in `issueRoutes-final.js`: format gate,
existence check, then `findByIdAndDelete` followed by
`Comment.deleteMany(\x7bissue: issueId\x7d)`. -/
def deleteIssue (s : Store) (id : String) : Nat × Store :=
  if isValidObjectId id then
    match findIssue s id with
    | none => (404, s)
    | some _ =>
      (200, ⟨s.issues.filter (fun i => !(i.id == id)),
             s.comments.filter (fun c => !(c.issue == id))⟩)
  else (400, s)

/-- GET /api/issues/:id/comments in `issueRoutes-final.js`: format gate,
issue existence check (404 when absent), then the issue's comments
sorted newest first. -/
def listComments (s : Store) (id : String) : Nat × Option (List Comment) :=
  if isValidObjectId id then
    match findIssue s id with
    | none => (404, none)
    | some _ =>
      (200, some ((s.comments.filter (fun c => c.issue == id)).mergeSort newerFirstC))
  else (400, none)

/-- Falsiness-plus-trim test on the comment body:
`!content || content.trim().length === 0`. -/
def contentMissing : Option String → Bool
  | none => true
  | some c => strLen (jsTrim c) == 0

/-- POST /api/issues/:id/comments in `issueRoutes-final.js`: format gate,
then the content check, then the issue existence check, then
`Comment.create` with the trimmed content, the authenticated user as
author and the issue id; 201 with the stored comment. -/
def addComment (s : Store) (id : String) (content : Option String)
    (userId newId : String) (now : Nat) : Nat × Option Comment × Store :=
  if isValidObjectId id then
    if contentMissing content then (400, none, s)
    else
      match findIssue s id with
      | none => (404, none, s)
      | some _ =>
        let c : Comment := ⟨newId, jsTrim (content.getD ""), userId, id, now⟩
        (201, some c, ⟨s.issues, c :: s.comments⟩)
  else (400, none, s)

/-- GET /api/issues in `issueRoutes-final.js`: every issue, sorted by
`createdAt` descending.  The per-issue view augmentation (author join,
comment count, age virtuals) does not alter membership or order and is
not modelled. -/
def listAllIssues (s : Store) : List Issue := s.issues.mergeSort newerFirst

/-- GET /api/issues/my-issues in `issueRoutes-final.js`: the issues whose
author is the authenticated user, sorted by `createdAt` descending. -/
def listMyIssues (s : Store) (userId : String) : List Issue :=
  (s.issues.filter (fun i => i.author == userId)).mergeSort newerFirst

/-- Mongoose `countDocuments` with a filter over the issue collection. -/
def countDocuments (issues : List Issue) (p : Issue → Bool) : Nat :=
  (issues.filter p).length

/-- JavaScript `toFixed(1)` on a nonnegative number, in exact rational
arithmetic: the closest multiple of 1/10, ties rounding up. -/
def toFixed1 (x : Rat) : Rat := ((round (x * 10) : Int) : Rat) / 10

/-- The statistics object of GET /api/issues/my-stats in
`issueRoutes-final.js`. -/
structure Stats where
  total : Nat
  «open» : Nat
  inProgress : Nat
  resolved : Nat
  closed : Nat
  solved : Nat
  ongoing : Nat
  completionRate : Rat
deriving DecidableEq, Repr

/-- GET /api/issues/my-stats in `issueRoutes-final.js`: five
`countDocuments` queries scoped to the acting user, the derived sums,
and `completionRate = ((resolved + closed) / total * 100).toFixed(1)`
when `total > 0`, else the number 0. -/
def myStats (s : Store) (userId : String) : Stats where
  total := countDocuments s.issues (fun i => i.author == userId)
  «open» := countDocuments s.issues (fun i => i.author == userId && i.status == Status.Open)
  inProgress := countDocuments s.issues (fun i => i.author == userId && i.status == Status.InProgress)
  resolved := countDocuments s.issues (fun i => i.author == userId && i.status == Status.Resolved)
  closed := countDocuments s.issues (fun i => i.author == userId && i.status == Status.Closed)
  solved := countDocuments s.issues (fun i => i.author == userId && i.status == Status.Resolved)
    + countDocuments s.issues (fun i => i.author == userId && i.status == Status.Closed)
  ongoing := countDocuments s.issues (fun i => i.author == userId && i.status == Status.Open)
    + countDocuments s.issues (fun i => i.author == userId && i.status == Status.InProgress)
  completionRate :=
    if 0 < countDocuments s.issues (fun i => i.author == userId) then
      toFixed1
        ((((countDocuments s.issues (fun i => i.author == userId && i.status == Status.Resolved)
              + countDocuments s.issues
                  (fun i => i.author == userId && i.status == Status.Closed) : Nat) : Rat)
            / (countDocuments s.issues (fun i => i.author == userId) : Rat)) * 100)
    else 0

/-- The statistics object of GET /api/issues/my-stats in the legacy
`issueRoutes.js`: the same five counts and two sums, with no
`completionRate` field. -/
structure LegacyStats where
  total : Nat
  «open» : Nat
  inProgress : Nat
  resolved : Nat
  closed : Nat
  solved : Nat
  ongoing : Nat
deriving DecidableEq, Repr

/-- GET /api/issues/my-stats in the legacy `issueRoutes.js`: the counts
are computed sequentially rather than in parallel, over the same
queries. -/
def legacyMyStats (s : Store) (userId : String) : LegacyStats where
  total := countDocuments s.issues (fun i => i.author == userId)
  «open» := countDocuments s.issues (fun i => i.author == userId && i.status == Status.Open)
  inProgress := countDocuments s.issues (fun i => i.author == userId && i.status == Status.InProgress)
  resolved := countDocuments s.issues (fun i => i.author == userId && i.status == Status.Resolved)
  closed := countDocuments s.issues (fun i => i.author == userId && i.status == Status.Closed)
  solved := countDocuments s.issues (fun i => i.author == userId && i.status == Status.Resolved)
    + countDocuments s.issues (fun i => i.author == userId && i.status == Status.Closed)
  ongoing := countDocuments s.issues (fun i => i.author == userId && i.status == Status.Open)
    + countDocuments s.issues (fun i => i.author == userId && i.status == Status.InProgress)

/-- DELETE /api/issues/:id in the legacy `issueRoutes.js`: no format
gate (a malformed id makes `findById` throw a CastError, which the
handler catches as a 500), existence check, then `findByIdAndDelete`
alone — the comments referencing the issue are left in place. -/
def legacyDeleteIssue (s : Store) (id : String) : Nat × Store :=
  if isValidObjectId id then
    match findIssue s id with
    | none => (404, s)
    | some _ => (200, ⟨s.issues.filter (fun i => !(i.id == id)), s.comments⟩)
  else (500, s)

/-- GET /api/issues/:id/comments in the legacy `issueRoutes.js`: no
format gate and no issue existence check: the comment query runs
directly, so a deleted or absent issue yields 200 with whatever
comments match. -/
def legacyListComments (s : Store) (id : String) : Nat × Option (List Comment) :=
  if isValidObjectId id then
    (200, some ((s.comments.filter (fun c => c.issue == id)).mergeSort newerFirstC))
  else (500, none)

/-- The identifier shape claimed by the spec, stated in the spec's own
words for comparison with the code's gate `isValidObjectId`: exactly 24
lowercase hexadecimal characters. -/
def isLowerHex24 (s : String) : Bool :=
  s.data.length == 24 &&
    s.data.all (fun c => (('0' ≤ c && c ≤ '9') || ('a' ≤ c && c ≤ 'f')))

/-! Concrete documents and stores used by witnesses and counterexamples. -/

/-- The spec's example of a well-formed ObjectId. -/
def sampleId : String := "507f1f77bcf86cd799439011"

/-- A well-formed ObjectId written with uppercase hex letters. -/
def upperId : String := "ABCDEF0123456789ABCDEF01"

/-- A user id acting as the issue author in the examples. -/
def userA : String := "aaaaaaaaaaaaaaaaaaaaaaaa"

/-- A second user id, distinct from `userA`. -/
def userB : String := "bbbbbbbbbbbbbbbbbbbbbbbb"

/-- An empty document store. -/
def emptyStore : Store := ⟨[], []⟩

/-- A stored issue authored by `userA`. -/
def issueA : Issue := ⟨sampleId, "Bug X", "", Status.Open, Priority.Low, "", userA, 5⟩

/-- A stored comment attached to `issueA`. -/
def commentA : Comment := ⟨"cccccccccccccccccccccccc", "hi", userA, sampleId, 6⟩

/-- A store holding `issueA` and its comment `commentA`. -/
def storeA : Store := ⟨[issueA], [commentA]⟩

/-- A patch that supplies only an author value. -/
def authorOnlyPatch : IssueDraft := ⟨none, none, none, none, none, some userB⟩

/-- A draft whose title carries a trailing space but is otherwise valid. -/
def paddedDraft : IssueDraft := ⟨some "Bug ", none, none, none, none, none⟩

/-- A store with three issues by `userA` (statuses Open, Resolved,
Closed), giving a completion rate of two thirds. -/
def statStore : Store :=
  ⟨[issueA,
    { issueA with id := "dddddddddddddddddddddddd", status := Status.Resolved, createdAt := 9 },
    { issueA with id := "eeeeeeeeeeeeeeeeeeeeeeee", status := Status.Closed, createdAt := 2 }],
   []⟩

/-- The draft with an untrimmed 2001-character description. -/
def paddedDescDraft : IssueDraft :=
  ⟨some "Bug", some ⟨List.replicate 2000 'a' ++ [' ']⟩, none, none, none, none⟩

/-! Helper lemmas. -/

/-- Inversion for a successful `Except.bind`. -/
theorem bind_ok {α β : Type} {x : Except (List String) α} {f : α → Except (List String) β}
    {b : β} (h : x.bind f = Except.ok b) : ∃ a, x = Except.ok a ∧ f a = Except.ok b := by
  cases x with
  | error e => simp [Except.bind] at h
  | ok a => exact ⟨a, rfl, by simpa [Except.bind] using h⟩

/-- Equation lemma: a present field goes through its validator. -/
theorem patchField_some {α : Type} (keep : α) (validate : String → Except (List String) α)
    (x : String) : patchField keep validate (some x) = validate x := rfl

/-- Equation lemma: an absent field keeps the given value. -/
theorem patchField_none {α : Type} (keep : α) (validate : String → Except (List String) α) :
    patchField keep validate none = Except.ok keep := rfl

/-- A successful patch application keeps the id and creation time, keeps
every field the patch omits, and sets every field the patch supplies to
its validated value — the author field among them, unvalidated. -/
theorem applyPatch_spec (old ni : Issue) (p : IssueDraft)
    (h : applyPatch old p = Except.ok ni) :
    ni.id = old.id ∧ ni.createdAt = old.createdAt ∧
    (p.title = none → ni.title = old.title) ∧
    (∀ x, p.title = some x → validateTitle x = Except.ok ni.title) ∧
    (p.description = none → ni.description = old.description) ∧
    (∀ x, p.description = some x → validateDescription x = Except.ok ni.description) ∧
    (p.status = none → ni.status = old.status) ∧
    (∀ x, p.status = some x → validateStatus x = Except.ok ni.status) ∧
    (p.priority = none → ni.priority = old.priority) ∧
    (∀ x, p.priority = some x → validatePriority x = Except.ok ni.priority) ∧
    (p.assignee = none → ni.assignee = old.assignee) ∧
    (∀ x, p.assignee = some x → validateAssignee x = Except.ok ni.assignee) ∧
    (p.author = none → ni.author = old.author) ∧
    (∀ a, p.author = some a → ni.author = a) := by
  unfold applyPatch at h
  obtain ⟨t, ht, h⟩ := bind_ok h
  obtain ⟨de, hde, h⟩ := bind_ok h
  obtain ⟨st, hst, h⟩ := bind_ok h
  obtain ⟨pr, hpr, h⟩ := bind_ok h
  obtain ⟨asg, hasg, h⟩ := bind_ok h
  obtain rfl : ({ old with
      title := t, description := de, status := st, priority := pr, assignee := asg,
      author := p.author.getD old.author } : Issue) = ni := by
    simpa using h
  refine ⟨rfl, rfl, ?_, ?_, ?_, ?_, ?_, ?_, ?_, ?_, ?_, ?_, ?_, ?_⟩
  · intro hn; rw [hn] at ht; simpa [patchField] using ht.symm
  · intro x hx; rw [hx] at ht; simpa [patchField] using ht
  · intro hn; rw [hn] at hde; simpa [patchField] using hde.symm
  · intro x hx; rw [hx] at hde; simpa [patchField] using hde
  · intro hn; rw [hn] at hst; simpa [patchField] using hst.symm
  · intro x hx; rw [hx] at hst; simpa [patchField] using hst
  · intro hn; rw [hn] at hpr; simpa [patchField] using hpr.symm
  · intro x hx; rw [hx] at hpr; simpa [patchField] using hpr
  · intro hn; rw [hn] at hasg; simpa [patchField] using hasg.symm
  · intro x hx; rw [hx] at hasg; simpa [patchField] using hasg
  · intro hn; simp [hn]
  · intro a ha; simp [ha]

/-- A successful document validation produces the trimmed supplied
values and the schema defaults for absent fields. -/
theorem validateIssue_spec (d : IssueDraft) (f : IssueFields)
    (h : validateIssue d = Except.ok f) :
    (∀ t, d.title = some t → f.title = jsTrim t ∧ 3 ≤ strLen (jsTrim t) ∧ strLen (jsTrim t) ≤ 200) ∧
    (d.description = none → f.description = "") ∧
    (∀ x, d.description = some x → f.description = jsTrim x ∧ strLen (jsTrim x) ≤ 2000) ∧
    (d.status = none → f.status = Status.Open) ∧
    (∀ x, d.status = some x → parseStatus x = some f.status) ∧
    (d.priority = none → f.priority = Priority.Low) ∧
    (∀ x, d.priority = some x → parsePriority x = some f.priority) ∧
    (d.assignee = none → f.assignee = "") ∧
    (∀ x, d.assignee = some x → f.assignee = jsTrim x) := by
  unfold validateIssue at h
  obtain ⟨t, ht, h⟩ := bind_ok h
  obtain ⟨de, hde, h⟩ := bind_ok h
  obtain ⟨st, hst, h⟩ := bind_ok h
  obtain ⟨pr, hpr, h⟩ := bind_ok h
  obtain ⟨asg, hasg, h⟩ := bind_ok h
  obtain rfl : (⟨t, de, st, pr, asg⟩ : IssueFields) = f := by simpa using h
  refine ⟨?_, ?_, ?_, ?_, ?_, ?_, ?_, ?_, ?_⟩
  · intro x hx
    rw [hx] at ht
    simp only [requireTitle] at ht
    unfold validateTitle at ht
    split at ht
    · simp at ht
    · split at ht
      · simp at ht
      · split at ht
        · simp at ht
        · refine ⟨by simpa using ht.symm, by omega, by omega⟩
  · intro hn; rw [hn] at hde; simpa [patchField] using hde.symm
  · intro x hx
    rw [hx] at hde
    simp only [patchField] at hde
    unfold validateDescription at hde
    split at hde
    · simp at hde
    · exact ⟨by simpa using hde.symm, by omega⟩
  · intro hn; rw [hn] at hst; simpa [patchField] using hst.symm
  · intro x hx
    rw [hx] at hst
    simp only [patchField] at hst
    unfold validateStatus at hst
    split at hst
    · rename_i st2 heq
      obtain rfl : st2 = st := by simpa using hst
      exact heq
    · simp at hst
  · intro hn; rw [hn] at hpr; simpa [patchField] using hpr.symm
  · intro x hx
    rw [hx] at hpr
    simp only [patchField] at hpr
    unfold validatePriority at hpr
    split at hpr
    · rename_i pr2 heq
      obtain rfl : pr2 = pr := by simpa using hpr
      exact heq
    · simp at hpr
  · intro hn; rw [hn] at hasg; simpa [patchField] using hasg.symm
  · intro x hx
    rw [hx] at hasg
    simp only [patchField] at hasg
    unfold validateAssignee at hasg
    split at hasg
    · simp at hasg
    · simpa using hasg.symm

/-- Dropping whitespace from a run of the letter a drops nothing. -/
theorem dropWhile_ws_replicate_a (n : Nat) :
    (List.replicate n 'a').dropWhile Char.isWhitespace = List.replicate n 'a' := by
  cases n with
  | zero => simp
  | succ m => rw [List.replicate_succ, List.dropWhile_cons_of_neg (by decide)]

/-- Trimming a nonempty run of the letter a followed by one space yields
the run alone. -/
theorem jsTrim_replicate_a_space (n : Nat) :
    jsTrim ⟨List.replicate (n + 1) 'a' ++ [' ']⟩ = ⟨List.replicate (n + 1) 'a'⟩ := by
  unfold jsTrim
  rw [List.replicate_succ, List.cons_append,
    List.dropWhile_cons_of_neg (by decide), ← List.cons_append, ← List.replicate_succ,
    List.reverse_append, List.reverse_replicate, List.reverse_singleton, List.singleton_append,
    List.dropWhile_cons_of_pos (by decide), dropWhile_ws_replicate_a, List.reverse_replicate]

/-- The descending comparison on issues is transitive. -/
theorem newerFirst_trans (a b c : Issue) :
    newerFirst a b → newerFirst b c → newerFirst a c := by
  simp only [newerFirst, decide_eq_true_eq]
  exact fun h1 h2 => le_trans h2 h1

/-- The descending comparison on issues is total. -/
theorem newerFirst_total (a b : Issue) : newerFirst a b || newerFirst b a := by
  simp only [newerFirst, Bool.or_eq_true, decide_eq_true_eq]
  exact Nat.le_total b.createdAt a.createdAt

/-- The descending comparison on comments is transitive. -/
theorem newerFirstC_trans (a b c : Comment) :
    newerFirstC a b → newerFirstC b c → newerFirstC a c := by
  simp only [newerFirstC, decide_eq_true_eq]
  exact fun h1 h2 => le_trans h2 h1

/-- The descending comparison on comments is total. -/
theorem newerFirstC_total (a b : Comment) : newerFirstC a b || newerFirstC b a := by
  simp only [newerFirstC, Bool.or_eq_true, decide_eq_true_eq]
  exact Nat.le_total b.createdAt a.createdAt

/-- Issues sorted with `newerFirst` are pairwise newest-first. -/
theorem pairwise_of_mergeSort_issues (l : List Issue) :
    (l.mergeSort newerFirst).Pairwise (fun a b => b.createdAt ≤ a.createdAt) := by
  refine (List.sorted_mergeSort newerFirst_trans newerFirst_total l).imp ?_
  intro a b h
  simpa [newerFirst] using h

/-- Comments sorted with `newerFirstC` are pairwise newest-first. -/
theorem pairwise_of_mergeSort_comments (l : List Comment) :
    (l.mergeSort newerFirstC).Pairwise (fun a b => b.createdAt ≤ a.createdAt) := by
  refine (List.sorted_mergeSort newerFirstC_trans newerFirstC_total l).imp ?_
  intro a b h
  simpa [newerFirstC] using h

/-- Over any issue list, the four per-status counts scoped to one author
partition that author's total count: every issue has exactly one of the
four statuses. -/
theorem counts_partition (l : List Issue) (u : String) :
    countDocuments l (fun i => i.author == u && i.status == Status.Open)
      + countDocuments l (fun i => i.author == u && i.status == Status.InProgress)
      + countDocuments l (fun i => i.author == u && i.status == Status.Resolved)
      + countDocuments l (fun i => i.author == u && i.status == Status.Closed)
      = countDocuments l (fun i => i.author == u) := by
  induction l with
  | nil => rfl
  | cons x t ih =>
    rcases hx : (x.author == u) with _ | _ <;>
      rcases hst : x.status <;>
        simp_all [countDocuments, List.filter_cons, hx, hst] <;> omega

/-- Round-half-up to tenths, executably: for positive `b`, the natural
number `(2000 * a + b) / (2 * b)` is `(a / b) * 100` rounded to one
decimal place, scaled by ten. -/
theorem roundTenths_eq (a b : Nat) (h : 0 < b) :
    ((((2000 * a + b) / (2 * b) : Nat) : Rat) / 10)
      = ((round (((a : Rat) / b) * 100 * 10) : Int) : Rat) / 10 := by
  have hb : (b : Rat) ≠ 0 := Nat.cast_ne_zero.mpr h.ne'
  have h1 : ((a : Rat) / b) * 100 * 10
      = ((2000 * a + b : Nat) : Rat) / ((2 * b : Nat) : Rat) - 1/2 := by
    push_cast
    field_simp
    ring
  rw [h1, round_eq]
  have h2 : ((2000 * a + b : Nat) : Rat) / ((2 * b : Nat) : Rat) - 1/2 + 1/2
      = ((2000 * a + b : Nat) : Rat) / ((2 * b : Nat) : Rat) := by ring
  rw [h2, Rat.floor_natCast_div_natCast, ← Int.ofNat_ediv]
  simp only [Int.cast_natCast]

/-! Claim C1. -/

/-- C1 counterexample: on a store holding `issueA` (author `userA`), an
update whose patch supplies `author = userB` succeeds and stores the
issue with author `userB` — `updateIssue` does not leave the author
field unchanged when the patch supplies one. -/
theorem C1_cex_author_overwritten :
    issueA.author = userA ∧ userB ≠ userA ∧
    (updateIssue storeA sampleId authorOnlyPatch).1 = 200 ∧
    (updateIssue storeA sampleId authorOnlyPatch).2.1 =
      some { issueA with author := userB } := by decide

/-- C1 (amended): for every store, well-formed id resolving to a stored
issue, and patch passing validation, `updateIssue` answers 200 with the
patched issue and replaces it in the store; every field the patch omits
is unchanged (id and creation time always), and every field the patch
supplies — `author` among them, which the code does not protect — is
set to its validated patch value. -/
theorem C1_update_frame (s : Store) (id : String) (p : IssueDraft) (old ni : Issue)
    (hv : isValidObjectId id = true) (hf : findIssue s id = some old)
    (hp : applyPatch old p = Except.ok ni) :
    updateIssue s id p =
      (200, some ni, ⟨s.issues.map (fun i => if i.id == id then ni else i), s.comments⟩) ∧
    ni.id = old.id ∧ ni.createdAt = old.createdAt ∧
    (p.title = none → ni.title = old.title) ∧
    (p.description = none → ni.description = old.description) ∧
    (p.status = none → ni.status = old.status) ∧
    (p.priority = none → ni.priority = old.priority) ∧
    (p.assignee = none → ni.assignee = old.assignee) ∧
    (p.author = none → ni.author = old.author) ∧
    (∀ a, p.author = some a → ni.author = a) ∧
    (∀ x, p.title = some x → validateTitle x = Except.ok ni.title) ∧
    (∀ x, p.description = some x → validateDescription x = Except.ok ni.description) ∧
    (∀ x, p.status = some x → validateStatus x = Except.ok ni.status) ∧
    (∀ x, p.priority = some x → validatePriority x = Except.ok ni.priority) ∧
    (∀ x, p.assignee = some x → validateAssignee x = Except.ok ni.assignee) := by
  obtain ⟨h1, h2, h3, h4, h5, h6, h7, h8, h9, h10, h11, h12, h13, h14⟩ :=
    applyPatch_spec old ni p hp
  refine ⟨?_, h1, h2, h3, h5, h7, h9, h11, h13, h14, h4, h6, h8, h10, h12⟩
  simp [updateIssue, hv, hf, hp]

/-- Witness for C1: the amended statement applied to the concrete store
`storeA` and the author-only patch. -/
theorem C1_update_frame_witness :
    updateIssue storeA sampleId authorOnlyPatch =
      (200, some { issueA with author := userB },
       ⟨storeA.issues.map
          (fun i => if i.id == sampleId then { issueA with author := userB } else i),
        storeA.comments⟩) :=
  (C1_update_frame storeA sampleId authorOnlyPatch issueA
    { issueA with author := userB } (by decide) (by decide) rfl).1

/-! Claim C2. -/

/-- C2 counterexample: the draft with title containing a trailing space
is accepted and persisted, but the record returned by the subsequent
get carries the trimmed title, which differs from the draft title. -/
theorem C2_cex_title_trimmed :
    paddedDraft.title = some "Bug " ∧
    (createIssue emptyStore paddedDraft userA sampleId 5).1 = 201 ∧
    getIssue (createIssue emptyStore paddedDraft userA sampleId 5).2.2 sampleId
      = (200, some ⟨sampleId, "Bug", "", Status.Open, Priority.Low, "", userA, 5⟩) ∧
    "Bug" ≠ "Bug " := by decide

/-- C2 (amended): for every valid draft and acting user `u`,
`createIssue` persists the issue with author `u` (ignoring any
caller-supplied author in the draft), and a subsequent `getIssue` of
the new id returns the stored record, whose title, description and
assignee are the trimmed draft values (with the schema defaults for
omitted fields) and whose status and priority are those the draft
named. -/
theorem C2_create_get_roundtrip (s : Store) (d : IssueDraft) (u nid : String) (now : Nat)
    (f : IssueFields) (hv : validateIssue d = Except.ok f)
    (hid : isValidObjectId nid = true) :
    ∃ i : Issue,
      createIssue s d u nid now = (201, some i, ⟨i :: s.issues, s.comments⟩) ∧
      getIssue (⟨i :: s.issues, s.comments⟩ : Store) nid = (200, some i) ∧
      i.author = u ∧ i.id = nid ∧ i.createdAt = now ∧
      (∀ t, d.title = some t → i.title = jsTrim t) ∧
      (d.description = none → i.description = "") ∧
      (∀ x, d.description = some x → i.description = jsTrim x) ∧
      (d.status = none → i.status = Status.Open) ∧
      (∀ x, d.status = some x → parseStatus x = some i.status) ∧
      (d.priority = none → i.priority = Priority.Low) ∧
      (∀ x, d.priority = some x → parsePriority x = some i.priority) ∧
      (d.assignee = none → i.assignee = "") ∧
      (∀ x, d.assignee = some x → i.assignee = jsTrim x) := by
  obtain ⟨g1, g2, g3, g4, g5, g6, g7, g8, g9⟩ := validateIssue_spec d f hv
  refine ⟨⟨nid, f.title, f.description, f.status, f.priority, f.assignee, u, now⟩,
    ?_, ?_, rfl, rfl, rfl, ?_, g2, ?_, g4, g5, g6, g7, g8, g9⟩
  · simp [createIssue, hv]
  · have hfind : findIssue
        (⟨(⟨nid, f.title, f.description, f.status, f.priority, f.assignee, u, now⟩ : Issue)
            :: s.issues, s.comments⟩ : Store) nid
        = some ⟨nid, f.title, f.description, f.status, f.priority, f.assignee, u, now⟩ := by
      unfold findIssue
      exact List.find?_cons_of_pos _ (by simp)
    simp [getIssue, hid, hfind]
  · exact fun t ht => (g1 t ht).1
  · exact fun x hx => (g3 x hx).1

/-- Witness for C2: the amended statement applied to the padded draft. -/
theorem C2_create_get_roundtrip_witness :
    ∃ i : Issue,
      createIssue emptyStore paddedDraft userA sampleId 5
        = (201, some i, ⟨i :: emptyStore.issues, emptyStore.comments⟩) ∧
      getIssue (⟨i :: emptyStore.issues, emptyStore.comments⟩ : Store) sampleId
        = (200, some i) ∧
      i.author = userA ∧ i.id = sampleId ∧ i.createdAt = 5 ∧
      (∀ t, paddedDraft.title = some t → i.title = jsTrim t) ∧
      (paddedDraft.description = none → i.description = "") ∧
      (∀ x, paddedDraft.description = some x → i.description = jsTrim x) ∧
      (paddedDraft.status = none → i.status = Status.Open) ∧
      (∀ x, paddedDraft.status = some x → parseStatus x = some i.status) ∧
      (paddedDraft.priority = none → i.priority = Priority.Low) ∧
      (∀ x, paddedDraft.priority = some x → parsePriority x = some i.priority) ∧
      (paddedDraft.assignee = none → i.assignee = "") ∧
      (∀ x, paddedDraft.assignee = some x → i.assignee = jsTrim x) :=
  C2_create_get_roundtrip emptyStore paddedDraft userA sampleId 5
    ⟨"Bug", "", Status.Open, Priority.Low, ""⟩ rfl (by decide)

/-! Claim C3. -/

/-- C3: whenever `deleteIssue` succeeds (status 200), the resulting
store holds no comment referencing the deleted id, and `listComments`
on that store answers 404 with no payload. -/
theorem C3_delete_cascades (s : Store) (id : String)
    (h : (deleteIssue s id).1 = 200) :
    (∀ c ∈ (deleteIssue s id).2.comments, c.issue ≠ id) ∧
    listComments (deleteIssue s id).2 id = (404, none) := by
  by_cases hv : isValidObjectId id = true
  · cases hf : findIssue s id with
    | none => rw [deleteIssue, if_pos hv, hf] at h; simp at h
    | some i =>
      have hdel : deleteIssue s id =
          (200, ⟨s.issues.filter (fun j => !(j.id == id)),
                 s.comments.filter (fun c => !(c.issue == id))⟩) := by
        rw [deleteIssue, if_pos hv, hf]
      rw [hdel]
      constructor
      · intro c hc
        have := (List.mem_filter.mp hc).2
        simpa using this
      · have hnone : findIssue
            (⟨s.issues.filter (fun j => !(j.id == id)),
              s.comments.filter (fun c => !(c.issue == id))⟩ : Store) id = none := by
          unfold findIssue
          rw [List.find?_eq_none]
          intro j hj
          have := (List.mem_filter.mp hj).2
          simpa using this
        rw [listComments, if_pos hv, hnone]
  · rw [deleteIssue, if_neg hv] at h
    simp at h

/-- Witness for C3: deleting `issueA` from `storeA` succeeds and indeed
leaves no comment on it, with `listComments` answering 404. -/
theorem C3_delete_cascades_witness :
    (∀ c ∈ (deleteIssue storeA sampleId).2.comments, c.issue ≠ sampleId) ∧
    listComments (deleteIssue storeA sampleId).2 sampleId = (404, none) :=
  C3_delete_cascades storeA sampleId (by decide)

/-! Claim C4. -/

/-- C4 counterexample: an uppercase 24-hex id is not of the claimed
lowercase shape, yet the gate accepts it and `getIssue` proceeds to the
store lookup, answering 404 rather than a 400 format rejection. -/
theorem C4_cex_uppercase_accepted :
    isLowerHex24 upperId = false ∧ isValidObjectId upperId = true ∧
    getIssue storeA upperId = (404, none) := by decide

/-- C4 (amended): every id-taking route gates ids with one and the same
check — exactly 24 hexadecimal characters of either case, not only
lowercase.  An id failing the gate is answered 400 with the store
untouched and no payload, uniformly over every store, so no lookup can
have happened; an id passing the gate reaches the store lookup, whose
failure is exactly what produces the 404 outcome (for addComment, once
the content check has passed). -/
theorem C4_id_gate (s : Store) (id : String) :
    (isValidObjectId id = true ↔
      (strLen id = 24 ∧ ∀ c ∈ id.data,
        ('0' ≤ c ∧ c ≤ '9') ∨ ('a' ≤ c ∧ c ≤ 'f') ∨ ('A' ≤ c ∧ c ≤ 'F'))) ∧
    (isValidObjectId id = false →
      getIssue s id = (400, none) ∧
      (∀ p, updateIssue s id p = (400, none, s)) ∧
      deleteIssue s id = (400, s) ∧
      listComments s id = (400, none) ∧
      (∀ co u nid now, addComment s id co u nid now = (400, none, s))) ∧
    (isValidObjectId id = true →
      ((getIssue s id).1 = 404 ↔ findIssue s id = none) ∧
      (∀ p, ((updateIssue s id p).1 = 404 ↔ findIssue s id = none)) ∧
      ((deleteIssue s id).1 = 404 ↔ findIssue s id = none) ∧
      ((listComments s id).1 = 404 ↔ findIssue s id = none) ∧
      (∀ co u nid now, contentMissing co = false →
        ((addComment s id co u nid now).1 = 404 ↔ findIssue s id = none))) := by
  refine ⟨?_, ?_, ?_⟩
  · constructor
    · intro hv
      simp only [isValidObjectId, Bool.and_eq_true, beq_iff_eq, List.all_eq_true,
        Bool.or_eq_true, decide_eq_true_eq] at hv
      exact ⟨hv.1, fun c hc => by rcases hv.2 c hc with (h | h) | h <;> tauto⟩
    · intro hlh
      simp only [isValidObjectId, Bool.and_eq_true, beq_iff_eq, List.all_eq_true,
        Bool.or_eq_true, decide_eq_true_eq]
      exact ⟨hlh.1, fun c hc => by rcases hlh.2 c hc with h | h | h <;> tauto⟩
  · intro hv
    have hv2 : ¬ isValidObjectId id = true := by simp [hv]
    refine ⟨?_, fun p => ?_, ?_, ?_, fun co u nid now => ?_⟩ <;>
      simp [getIssue, updateIssue, deleteIssue, listComments, addComment, hv2]
  · intro hv
    refine ⟨?_, fun p => ?_, ?_, ?_, fun co u nid now hco => ?_⟩
    · cases hf : findIssue s id with
      | none => simp [getIssue, hv, hf]
      | some i => simp [getIssue, hv, hf]
    · cases hf : findIssue s id with
      | none => simp [updateIssue, hv, hf]
      | some i =>
        cases hp : applyPatch i p with
        | error e => simp [updateIssue, hv, hf, hp]
        | ok ni => simp [updateIssue, hv, hf, hp]
    · cases hf : findIssue s id with
      | none => simp [deleteIssue, hv, hf]
      | some i => simp [deleteIssue, hv, hf]
    · cases hf : findIssue s id with
      | none => simp [listComments, hv, hf]
      | some i => simp [listComments, hv, hf]
    · cases hf : findIssue s id with
      | none => simp [addComment, hv, hf, hco]
      | some i => simp [addComment, hv, hf, hco]

/-- Witness for C4: the gate clauses applied to the malformed id "abc"
over the concrete store. -/
theorem C4_id_gate_witness :
    getIssue storeA "abc" = (400, none) ∧ deleteIssue storeA "abc" = (400, storeA) ∧
    listComments storeA "abc" = (400, none) :=
  ⟨((C4_id_gate storeA "abc").2.1 (by decide)).1,
   ((C4_id_gate storeA "abc").2.1 (by decide)).2.2.1,
   ((C4_id_gate storeA "abc").2.1 (by decide)).2.2.2.1⟩

/-! Claim C5. -/

/-- C5: the my-stats counts are scoped to the issues of the acting user and
satisfy the stated identities: the four status counts partition the
total, solved and ongoing are the stated sums, the completion rate is
the solved share of the total in percent rounded to one decimal place
when the total is positive (equivalently, the executable half-up
rounding of `2000 * solved + total` over `2 * total`, in tenths), and 0
when the total is 0. -/
theorem C5_myStats (s : Store) (u : String) :
    (myStats s u).total = countDocuments s.issues (fun i => i.author == u) ∧
    (myStats s u).«open» + (myStats s u).inProgress + (myStats s u).resolved
        + (myStats s u).closed = (myStats s u).total ∧
    (myStats s u).solved = (myStats s u).resolved + (myStats s u).closed ∧
    (myStats s u).ongoing = (myStats s u).«open» + (myStats s u).inProgress ∧
    ((myStats s u).total = 0 → (myStats s u).completionRate = 0) ∧
    (0 < (myStats s u).total →
      (myStats s u).completionRate =
        ((round ((((myStats s u).solved : Rat) / ((myStats s u).total : Rat)) * 100 * 10)
          : Int) : Rat) / 10) ∧
    (0 < (myStats s u).total →
      (myStats s u).completionRate =
        (((2000 * (myStats s u).solved + (myStats s u).total)
            / (2 * (myStats s u).total) : Nat) : Rat) / 10) := by
  refine ⟨rfl, ?_, rfl, rfl, ?_, ?_, ?_⟩
  · simpa only [myStats] using counts_partition s.issues u
  · intro h0
    simp only [myStats] at h0 ⊢
    rw [if_neg (by omega)]
  · intro hpos
    simp only [myStats] at hpos ⊢
    rw [if_pos hpos]
    simp [toFixed1, mul_assoc]
  · intro hpos
    simp only [myStats] at hpos ⊢
    rw [if_pos hpos, roundTenths_eq _ _ hpos]
    simp [toFixed1, mul_assoc]

/-- Witness for C5: the statistics identities at the concrete store. -/
theorem C5_myStats_witness :
    0 < (myStats statStore userA).total ∧
    (myStats statStore userA).completionRate =
      (((2000 * (myStats statStore userA).solved + (myStats statStore userA).total)
          / (2 * (myStats statStore userA).total) : Nat) : Rat) / 10 :=
  ⟨by decide, (C5_myStats statStore userA).2.2.2.2.2.2 (by decide)⟩

/-! Claim C6. -/

/-- C6: for get, update and delete, a malformed id is answered with
status 400 while a well-formed id matching no stored issue is answered
with status 404, and the two statuses differ. -/
theorem C6_format_vs_notfound (s : Store) (id : String) :
    (isValidObjectId id = false →
      (getIssue s id).1 = 400 ∧ (∀ p, (updateIssue s id p).1 = 400) ∧
      (deleteIssue s id).1 = 400) ∧
    (isValidObjectId id = true → findIssue s id = none →
      (getIssue s id).1 = 404 ∧ (∀ p, (updateIssue s id p).1 = 404) ∧
      (deleteIssue s id).1 = 404) ∧
    (400 : Nat) ≠ 404 := by
  refine ⟨?_, ?_, by decide⟩
  · intro hv
    have hv2 : ¬ isValidObjectId id = true := by simp [hv]
    exact ⟨by simp [getIssue, hv2], fun p => by simp [updateIssue, hv2],
      by simp [deleteIssue, hv2]⟩
  · intro hv hf
    exact ⟨by simp [getIssue, hv, hf], fun p => by simp [updateIssue, hv, hf],
      by simp [deleteIssue, hv, hf]⟩

/-- Witness for C6: the id "abc" is malformed and yields 400; the
sample id from the spec is well-formed, absent from the empty store, and
yields 404. -/
theorem C6_format_vs_notfound_witness :
    (getIssue storeA "abc").1 = 400 ∧ (getIssue emptyStore sampleId).1 = 404 :=
  ⟨((C6_format_vs_notfound storeA "abc").1 (by decide)).1,
   ((C6_format_vs_notfound emptyStore sampleId).2.1 (by decide) (by decide)).1⟩

/-! Claim C7. -/

/-- The title validator fails on a too-short or too-long trimmed title. -/
theorem validateTitle_error (t : String)
    (h : strLen (jsTrim t) < 3 ∨ 200 < strLen (jsTrim t)) :
    ∃ e, validateTitle t = Except.error e := by
  unfold validateTitle
  split
  · exact ⟨_, rfl⟩
  · split
    · exact ⟨_, rfl⟩
    · split
      · exact ⟨_, rfl⟩
      · rcases h with h | h <;> omega

/-- The title validator accepts an in-bounds trimmed title. -/
theorem validateTitle_ok (t : String)
    (h3 : 3 ≤ strLen (jsTrim t)) (h200 : strLen (jsTrim t) ≤ 200) :
    validateTitle t = Except.ok (jsTrim t) := by
  unfold validateTitle
  rw [if_neg (by omega), if_neg (by omega), if_neg (by omega)]

/-- A validation chain rejects the whole document as soon as any present
field fails; these four lemmas locate the failing field for create. -/
theorem validateIssue_error_title (d : IssueDraft) (t : String) (ht : d.title = some t)
    (h : strLen (jsTrim t) < 3 ∨ 200 < strLen (jsTrim t)) :
    ∃ e, validateIssue d = Except.error e := by
  obtain ⟨e, he⟩ := validateTitle_error t h
  exact ⟨e, by simp [validateIssue, ht, requireTitle, he, Except.bind]⟩

/-- Create-time rejection on an overlong trimmed description. -/
theorem validateIssue_error_description (d : IssueDraft) (x : String)
    (hx : d.description = some x) (h : 2000 < strLen (jsTrim x)) :
    ∃ e, validateIssue d = Except.error e := by
  cases h1 : requireTitle d.title with
  | error e => exact ⟨e, by simp [validateIssue, h1, Except.bind]⟩
  | ok t =>
    have he : validateDescription x
        = Except.error ["Description cannot exceed 2000 characters"] := by
      unfold validateDescription
      rw [if_pos h]
    exact ⟨["Description cannot exceed 2000 characters"],
      by simp [validateIssue, h1, hx, patchField_some, he, Except.bind]⟩

/-- Create-time rejection on a status outside the enumeration. -/
theorem validateIssue_error_status (d : IssueDraft) (x : String)
    (hx : d.status = some x) (h : parseStatus x = none) :
    ∃ e, validateIssue d = Except.error e := by
  cases h1 : requireTitle d.title with
  | error e => exact ⟨e, by simp [validateIssue, h1, Except.bind]⟩
  | ok t =>
    cases h2 : patchField "" validateDescription d.description with
    | error e => exact ⟨e, by simp [validateIssue, h1, h2, Except.bind]⟩
    | ok de =>
      have he : validateStatus x
          = Except.error ["Status must be one of: Open, In Progress, Resolved, Closed"] := by
        unfold validateStatus
        rw [h]
      exact ⟨["Status must be one of: Open, In Progress, Resolved, Closed"],
        by simp [validateIssue, h1, h2, hx, patchField_some, he, Except.bind]⟩

/-- Create-time rejection on a priority outside the enumeration. -/
theorem validateIssue_error_priority (d : IssueDraft) (x : String)
    (hx : d.priority = some x) (h : parsePriority x = none) :
    ∃ e, validateIssue d = Except.error e := by
  cases h1 : requireTitle d.title with
  | error e => exact ⟨e, by simp [validateIssue, h1, Except.bind]⟩
  | ok t =>
    cases h2 : patchField "" validateDescription d.description with
    | error e => exact ⟨e, by simp [validateIssue, h1, h2, Except.bind]⟩
    | ok de =>
      cases h3 : patchField Status.Open validateStatus d.status with
      | error e => exact ⟨e, by simp [validateIssue, h1, h2, h3, Except.bind]⟩
      | ok st =>
        have he : validatePriority x
            = Except.error ["Priority must be one of: Low, Medium, High, Urgent"] := by
          unfold validatePriority
          rw [h]
        exact ⟨["Priority must be one of: Low, Medium, High, Urgent"],
          by simp [validateIssue, h1, h2, h3, hx, patchField_some, he, Except.bind]⟩

/-- A failed document validation makes the create route answer 400 and
leave the store unchanged. -/
theorem createIssue_reject (s : Store) (d : IssueDraft) (u nid : String) (now : Nat)
    (h : ∃ e, validateIssue d = Except.error e) :
    createIssue s d u nid now = (400, none, s) := by
  obtain ⟨e, he⟩ := h
  simp [createIssue, he]

/-- The same four field-rejection lemmas for the patch chain. -/
theorem applyPatch_error_title (old : Issue) (p : IssueDraft) (t : String)
    (ht : p.title = some t) (h : strLen (jsTrim t) < 3 ∨ 200 < strLen (jsTrim t)) :
    ∃ e, applyPatch old p = Except.error e := by
  obtain ⟨e, he⟩ := validateTitle_error t h
  exact ⟨e, by simp [applyPatch, ht, patchField_some, he, Except.bind]⟩

/-- Patch-time rejection on an overlong trimmed description. -/
theorem applyPatch_error_description (old : Issue) (p : IssueDraft) (x : String)
    (hx : p.description = some x) (h : 2000 < strLen (jsTrim x)) :
    ∃ e, applyPatch old p = Except.error e := by
  cases h1 : patchField old.title validateTitle p.title with
  | error e => exact ⟨e, by simp [applyPatch, h1, Except.bind]⟩
  | ok t =>
    have he : validateDescription x
        = Except.error ["Description cannot exceed 2000 characters"] := by
      unfold validateDescription
      rw [if_pos h]
    exact ⟨["Description cannot exceed 2000 characters"],
      by simp [applyPatch, h1, hx, patchField_some, he, Except.bind]⟩

/-- Patch-time rejection on a status outside the enumeration. -/
theorem applyPatch_error_status (old : Issue) (p : IssueDraft) (x : String)
    (hx : p.status = some x) (h : parseStatus x = none) :
    ∃ e, applyPatch old p = Except.error e := by
  cases h1 : patchField old.title validateTitle p.title with
  | error e => exact ⟨e, by simp [applyPatch, h1, Except.bind]⟩
  | ok t =>
    cases h2 : patchField old.description validateDescription p.description with
    | error e => exact ⟨e, by simp [applyPatch, h1, h2, Except.bind]⟩
    | ok de =>
      have he : validateStatus x
          = Except.error ["Status must be one of: Open, In Progress, Resolved, Closed"] := by
        unfold validateStatus
        rw [h]
      exact ⟨["Status must be one of: Open, In Progress, Resolved, Closed"],
        by simp [applyPatch, h1, h2, hx, patchField_some, he, Except.bind]⟩

/-- Patch-time rejection on a priority outside the enumeration. -/
theorem applyPatch_error_priority (old : Issue) (p : IssueDraft) (x : String)
    (hx : p.priority = some x) (h : parsePriority x = none) :
    ∃ e, applyPatch old p = Except.error e := by
  cases h1 : patchField old.title validateTitle p.title with
  | error e => exact ⟨e, by simp [applyPatch, h1, Except.bind]⟩
  | ok t =>
    cases h2 : patchField old.description validateDescription p.description with
    | error e => exact ⟨e, by simp [applyPatch, h1, h2, Except.bind]⟩
    | ok de =>
      cases h3 : patchField old.status validateStatus p.status with
      | error e => exact ⟨e, by simp [applyPatch, h1, h2, h3, Except.bind]⟩
      | ok st =>
        have he : validatePriority x
            = Except.error ["Priority must be one of: Low, Medium, High, Urgent"] := by
          unfold validatePriority
          rw [h]
        exact ⟨["Priority must be one of: Low, Medium, High, Urgent"],
          by simp [applyPatch, h1, h2, h3, hx, patchField_some, he, Except.bind]⟩

/-- A failed patch validation makes the update route answer 400 and
leave the store unchanged. -/
theorem updateIssue_reject (s : Store) (id : String) (p : IssueDraft) (old : Issue)
    (hv : isValidObjectId id = true) (hf : findIssue s id = some old)
    (h : ∃ e, applyPatch old p = Except.error e) :
    updateIssue s id p = (400, none, s) := by
  obtain ⟨e, he⟩ := h
  simp [updateIssue, hv, hf, he]

/-- C7 counterexample: the raw description of `paddedDescDraft` has 2001
characters — it exceeds 2000 — yet creation succeeds, because the
schema validates the trimmed value. -/
theorem C7_cex_untrimmed_description :
    strLen (⟨List.replicate 2000 'a' ++ [' ']⟩ : String) = 2001 ∧
    paddedDescDraft.description = some ⟨List.replicate 2000 'a' ++ [' ']⟩ ∧
    (createIssue emptyStore paddedDescDraft userA sampleId 5).1 = 201 := by
  refine ⟨?_, rfl, ?_⟩
  · simp only [strLen, List.length_append, List.length_replicate, List.length_cons,
      List.length_nil]
  · have htr : jsTrim ⟨List.replicate 2000 'a' ++ [' ']⟩ = ⟨List.replicate 2000 'a'⟩ :=
      jsTrim_replicate_a_space 1999
    have hlen : strLen (⟨List.replicate 2000 'a'⟩ : String) = 2000 := by
      simp only [strLen, List.length_replicate]
    have hde : validateDescription ⟨List.replicate 2000 'a' ++ [' ']⟩
        = Except.ok ⟨List.replicate 2000 'a'⟩ := by
      unfold validateDescription
      rw [htr, hlen, if_neg (by omega)]
    have ht : requireTitle (some "Bug") = Except.ok "Bug" := rfl
    have key : ∀ x y : String, validateDescription x = Except.ok y →
        (createIssue emptyStore ⟨some "Bug", some x, none, none, none, none⟩
          userA sampleId 5).1 = 201 := by
      intro x y hde2
      have hok : validateIssue ⟨some "Bug", some x, none, none, none, none⟩
          = Except.ok ⟨"Bug", y, Status.Open, Priority.Low, ""⟩ := by
        simp [validateIssue, ht, hde2, patchField_some, patchField_none, Except.bind]
      simp [createIssue, hok]
    exact key _ _ hde

/-- C7 (amended): creation answers 400 with the store unchanged on a
draft whose trimmed title has fewer than 3 or more than 200 characters,
whose trimmed description has more than 2000 characters, or whose
status or priority lies outside its enumeration; a draft with only an
in-bounds title is accepted with description defaulting to the empty
string, status to Open and priority to Low; update applies the same
per-field constraints to exactly the fields present in the patch — in
particular a patch with no validated field present never fails
validation. -/
theorem C7_field_constraints (s : Store) (u nid : String) (now : Nat) (d : IssueDraft)
    (id : String) :
    (∀ t, d.title = some t → strLen (jsTrim t) < 3 →
        createIssue s d u nid now = (400, none, s)) ∧
    (∀ t, d.title = some t → 200 < strLen (jsTrim t) →
        createIssue s d u nid now = (400, none, s)) ∧
    (∀ x, d.description = some x → 2000 < strLen (jsTrim x) →
        createIssue s d u nid now = (400, none, s)) ∧
    (∀ x, d.status = some x → parseStatus x = none →
        createIssue s d u nid now = (400, none, s)) ∧
    (∀ x, d.priority = some x → parsePriority x = none →
        createIssue s d u nid now = (400, none, s)) ∧
    (∀ t, d.title = some t → d.description = none → d.status = none →
        d.priority = none → d.assignee = none →
        3 ≤ strLen (jsTrim t) → strLen (jsTrim t) ≤ 200 →
        createIssue s d u nid now =
          (201, some ⟨nid, jsTrim t, "", Status.Open, Priority.Low, "", u, now⟩,
           ⟨(⟨nid, jsTrim t, "", Status.Open, Priority.Low, "", u, now⟩ : Issue)
              :: s.issues, s.comments⟩)) ∧
    (∀ old, isValidObjectId id = true → findIssue s id = some old →
      (∀ t, d.title = some t → strLen (jsTrim t) < 3 →
          updateIssue s id d = (400, none, s)) ∧
      (∀ t, d.title = some t → 200 < strLen (jsTrim t) →
          updateIssue s id d = (400, none, s)) ∧
      (∀ x, d.description = some x → 2000 < strLen (jsTrim x) →
          updateIssue s id d = (400, none, s)) ∧
      (∀ x, d.status = some x → parseStatus x = none →
          updateIssue s id d = (400, none, s)) ∧
      (∀ x, d.priority = some x → parsePriority x = none →
          updateIssue s id d = (400, none, s)) ∧
      (d.title = none → d.description = none → d.status = none → d.priority = none →
          d.assignee = none →
          (updateIssue s id d).1 = 200 ∧
          (updateIssue s id d).2.1 = some { old with author := d.author.getD old.author })) := by
  refine ⟨?_, ?_, ?_, ?_, ?_, ?_, ?_⟩
  · exact fun t ht h => createIssue_reject s d u nid now
      (validateIssue_error_title d t ht (Or.inl h))
  · exact fun t ht h => createIssue_reject s d u nid now
      (validateIssue_error_title d t ht (Or.inr h))
  · exact fun x hx h => createIssue_reject s d u nid now
      (validateIssue_error_description d x hx h)
  · exact fun x hx h => createIssue_reject s d u nid now
      (validateIssue_error_status d x hx h)
  · exact fun x hx h => createIssue_reject s d u nid now
      (validateIssue_error_priority d x hx h)
  · intro t ht hd hs hp ha h3 h200
    have hok : validateIssue d
        = Except.ok ⟨jsTrim t, "", Status.Open, Priority.Low, ""⟩ := by
      simp [validateIssue, ht, hd, hs, hp, ha, requireTitle,
        validateTitle_ok t h3 h200, patchField_none, Except.bind]
    simp [createIssue, hok]
  · intro old hv hf
    refine ⟨?_, ?_, ?_, ?_, ?_, ?_⟩
    · exact fun t ht h => updateIssue_reject s id d old hv hf
        (applyPatch_error_title old d t ht (Or.inl h))
    · exact fun t ht h => updateIssue_reject s id d old hv hf
        (applyPatch_error_title old d t ht (Or.inr h))
    · exact fun x hx h => updateIssue_reject s id d old hv hf
        (applyPatch_error_description old d x hx h)
    · exact fun x hx h => updateIssue_reject s id d old hv hf
        (applyPatch_error_status old d x hx h)
    · exact fun x hx h => updateIssue_reject s id d old hv hf
        (applyPatch_error_priority old d x hx h)
    · intro ht hd hs hp ha
      have hap : applyPatch old d
          = Except.ok { old with author := d.author.getD old.author } := by
        simp [applyPatch, ht, hd, hs, hp, ha, patchField_none, Except.bind]
      simp [updateIssue, hv, hf, hap]

/-- Witness for C7: a two-character title is rejected, and a draft with
only a padded title is accepted with the schema defaults. -/
theorem C7_field_constraints_witness :
    createIssue emptyStore ⟨some "ab", none, none, none, none, none⟩ userA sampleId 5
      = (400, none, emptyStore) ∧
    createIssue emptyStore ⟨some " Bug ", none, none, none, none, none⟩ userA sampleId 5
      = (201, some ⟨sampleId, jsTrim " Bug ", "", Status.Open, Priority.Low, "", userA, 5⟩,
         ⟨(⟨sampleId, jsTrim " Bug ", "", Status.Open, Priority.Low, "", userA, 5⟩ : Issue)
            :: emptyStore.issues, emptyStore.comments⟩) :=
  ⟨(C7_field_constraints emptyStore userA sampleId 5
      ⟨some "ab", none, none, none, none, none⟩ sampleId).1 "ab" rfl (by decide),
   (C7_field_constraints emptyStore userA sampleId 5
      ⟨some " Bug ", none, none, none, none, none⟩ sampleId).2.2.2.2.2.1
      " Bug " rfl rfl rfl rfl rfl (by decide) (by decide)⟩

/-! Claim C8. -/

/-- C8: on a well-formed issue id, addComment answers 400 with the
store unchanged when the content is missing or trims to empty, 404 with
the store unchanged when no issue matches the id, and otherwise 201
with a stored comment carrying the trimmed content, the acting user as
author and the issue id. -/
theorem C8_addComment (s : Store) (id : String) (co : Option String) (u nid : String)
    (now : Nat) (hv : isValidObjectId id = true) :
    (contentMissing co = true → addComment s id co u nid now = (400, none, s)) ∧
    (contentMissing co = false → findIssue s id = none →
      addComment s id co u nid now = (404, none, s)) ∧
    (∀ i, contentMissing co = false → findIssue s id = some i →
      addComment s id co u nid now =
        (201, some ⟨nid, jsTrim (co.getD ""), u, id, now⟩,
         ⟨s.issues, (⟨nid, jsTrim (co.getD ""), u, id, now⟩ : Comment) :: s.comments⟩)) := by
  refine ⟨?_, ?_, ?_⟩
  · intro hco
    simp [addComment, hv, hco]
  · intro hco hf
    simp [addComment, hv, hco, hf]
  · intro i hco hf
    simp [addComment, hv, hco, hf]

/-- Witness for C8: adding a padded comment to the stored issue
persists it trimmed. -/
theorem C8_addComment_witness :
    addComment storeA sampleId (some " hello ") userB "ffffffffffffffffffffffff" 7
      = (201, some ⟨"ffffffffffffffffffffffff", jsTrim ((some " hello ").getD ""),
           userB, sampleId, 7⟩,
         ⟨storeA.issues, (⟨"ffffffffffffffffffffffff", jsTrim ((some " hello ").getD ""),
           userB, sampleId, 7⟩ : Comment) :: storeA.comments⟩) :=
  (C8_addComment storeA sampleId (some " hello ") userB "ffffffffffffffffffffffff" 7
    (by decide)).2.2 issueA (by decide) (by decide)

/-! Claim C9. -/

/-- C9: the three list endpoints return sequences sorted newest first:
the unrestricted issue list is a permutation of all stored issues, the
my-issues list of exactly the issues authored by the acting user, and a
successful comment list of exactly the comments attached to the issue. -/
theorem C9_list_order (s : Store) (u id : String) :
    (listAllIssues s).Pairwise (fun a b => b.createdAt ≤ a.createdAt) ∧
    List.Perm (listAllIssues s) s.issues ∧
    (listMyIssues s u).Pairwise (fun a b => b.createdAt ≤ a.createdAt) ∧
    List.Perm (listMyIssues s u) (s.issues.filter (fun i => i.author == u)) ∧
    (∀ l, listComments s id = (200, some l) →
      l.Pairwise (fun a b => b.createdAt ≤ a.createdAt) ∧
      List.Perm l (s.comments.filter (fun c => c.issue == id))) := by
  refine ⟨pairwise_of_mergeSort_issues s.issues, List.mergeSort_perm s.issues newerFirst,
    pairwise_of_mergeSort_issues _, List.mergeSort_perm _ newerFirst, ?_⟩
  intro l hl
  by_cases hv : isValidObjectId id = true
  · cases hf : findIssue s id with
    | none =>
      rw [listComments, if_pos hv, hf] at hl
      simp at hl
    | some i =>
      rw [listComments, if_pos hv, hf] at hl
      obtain rfl : (s.comments.filter (fun c => c.issue == id)).mergeSort newerFirstC = l := by
        simpa using hl
      exact ⟨pairwise_of_mergeSort_comments _, List.mergeSort_perm _ newerFirstC⟩
  · rw [listComments, if_neg hv] at hl
    simp at hl

/-- Witness for C9: the comment list of the stored issue is the one
attached comment. -/
theorem C9_list_order_witness :
    [commentA].Pairwise (fun a b => b.createdAt ≤ a.createdAt) ∧
    List.Perm [commentA] (storeA.comments.filter (fun c => c.issue == sampleId)) :=
  (C9_list_order storeA userA sampleId).2.2.2.2 [commentA] (by
    have hv : isValidObjectId sampleId = true := by decide
    have hf : findIssue storeA sampleId = some issueA := by decide
    have hfil : storeA.comments.filter (fun c => c.issue == sampleId) = [commentA] := by decide
    rw [listComments, if_pos hv, hf, hfil, List.mergeSort_singleton])

/-! Claim C10. -/

/-- C10 counterexample: deleting the stored issue succeeds in both
route modules, but they leave different stores — the final module
removes the attached comment, the legacy one keeps it — so the two
implementations are not equivalent. -/
theorem C10_cex_delete_divergence :
    (deleteIssue storeA sampleId).1 = 200 ∧
    (legacyDeleteIssue storeA sampleId).1 = 200 ∧
    (deleteIssue storeA sampleId).2.comments = [] ∧
    (legacyDeleteIssue storeA sampleId).2.comments = [commentA] ∧
    (deleteIssue storeA sampleId).2 ≠ (legacyDeleteIssue storeA sampleId).2 := by decide

/-- C10 (amended): the legacy and final route modules are not
equivalent (legacy delete leaves the comments of the deleted issue in
the store), but on the my-stats endpoint they agree: on every store and
user the legacy statistics object carries exactly the shared fields of
the final one. -/
theorem C10_stats_agree (s : Store) (u : String) :
    legacyMyStats s u =
      ⟨(myStats s u).total, (myStats s u).«open», (myStats s u).inProgress,
       (myStats s u).resolved, (myStats s u).closed,
       (myStats s u).solved, (myStats s u).ongoing⟩ := rfl

end IssueWeb
